import Mathlib

/-!
Shallow embedding of `wtforms_ndb/fields.py`: form-field adapters between an
ndb-style datastore (objects with string-serializable keys, queries that are
iterable lists of objects) and HTML-form string values.

Python getters/setters with side effects are modelled as explicit state
passing: each operation takes a field state and returns the value read and/or
the successor state.  Python exceptions raised by an operation are modelled
with `Except`/`Option` results.  External collaborators (the datastore `get`,
`get_async`, `query()` calls) are passed in as function parameters.
-/

namespace WtformsNdb

/-- An ndb key: an opaque identity. `urlsafe` is its string serialization
(the model uses the decimal rendering of the id where ndb uses base64;
only its role as a serialization is relevant). -/
structure Key where
  id : Nat
deriving DecidableEq, Repr

def Key.urlsafe (k : Key) : String := toString k.id

/-- A referenced datastore object: a key plus its remaining payload
(modelled as a label string). -/
structure Obj where
  key : Key
  label : String
deriving DecidableEq, Repr

/-- A query, modelled by the ordered list of objects its iteration yields. -/
abbrev Query := List Obj

/-- A reference class; `query()` on it derives the default all-entities
query. -/
structure RefClass where
  default_query : Query
deriving DecidableEq, Repr

/-! ### KeyPropertyField -/

namespace KeyPropertyField

/-- The mutable state of a `KeyPropertyField` relevant to data resolution:
`allow_blank`, the materialized `query`, and the `_data`/`_formdata` pair. -/
structure State where
  allow_blank : Bool
  query : Query
  _data : Option Obj
  _formdata : Option String
deriving DecidableEq, Repr

/-- `_set_data`: store the object, clear any pending token. -/
def _set_data (s : State) (d : Option Obj) : State :=
  { s with _data := d, _formdata := none }

/-- The state change performed by the `data` getter (`_get_data`): if a raw
token is pending, scan the query in order and store the first object whose
key serializes to the token (the for-loop with `break`); a non-matching scan
leaves the state unchanged (in particular `_formdata` stays set). -/
def resolve (s : State) : State :=
  match s._formdata with
  | none => s
  | some tok =>
    match s.query.find? (fun obj => obj.key.urlsafe == tok) with
    | some obj => _set_data s (some obj)
    | none => s

/-- The value returned by the `data` getter: resolve, then return `_data`. -/
def _get_data (s : State) : Option Obj := (resolve s)._data

/-- `__init__`'s handling of `reference_class`/`query`: the `query`
attribute is assigned only under `if reference_class is not None`, to
`query or reference_class.query()` (an ndb Query object is always truthy,
so `or` picks the supplied query whenever one was passed). The result is
`none` when the attribute is left unset. -/
def init_query (reference_class : Option RefClass) (query : Option Query) :
    Option Query :=
  match reference_class with
  | some rc => some (query.getD rc.default_query)
  | none => none

/-- `process_data(data)`: given a key-like reference, eagerly resolve via the
external `.get()` (which yields the entity or `None`) and store the result;
a falsy (`None`) input leaves the state untouched. -/
def process_data (get : Key → Option Obj) (s : State) (data : Option Key) :
    State :=
  match data with
  | some k => _set_data s (get k)
  | none => s

/-- `process_formdata(valuelist)`: no-op on an empty list; the blank sentinel
sets data to `None`; otherwise the first value becomes the pending token
(`_data` reset to `None`). -/
def process_formdata (s : State) (valuelist : List String) : State :=
  match valuelist with
  | [] => s
  | v :: _ =>
    if v = "__None" then _set_data s none
    else { s with _data := none, _formdata := some v }

/-- `pre_validate(form)`: error when resolved data is present but no query
object has an equal key (for-loop with `break`/`else`), or when data is
absent and blank is not allowed. -/
def pre_validate (s : State) : Except String Unit :=
  match _get_data s with
  | some d =>
    if s.query.any (fun obj => d.key == obj.key) then Except.ok ()
    else Except.error "Not a valid choice"
  | none =>
    if s.allow_blank then Except.ok ()
    else Except.error "Not a valid choice"

/-- `populate_obj(obj, name)`: the value written to the target attribute —
the resolved selection's key, or `None` when there is no selection. -/
def populate_obj (s : State) : Option Key :=
  match _get_data s with
  | some d => some d.key
  | none => none

end KeyPropertyField

/-! ### SelectMultipleMixin -/

/-- An entry of the multi-select field's resolved data list: either a
resolved object or the raw submitted token kept as a fallback when no query
object matched it. -/
inductive Entry where
  | obj (o : Obj)
  | raw (t : String)
deriving DecidableEq, Repr

/-- Attribute access `x.key` on a data entry: succeeds on an object, raises
`AttributeError` on a raw string token. -/
def Entry.key : Entry → Except String Key
  | Entry.obj o => Except.ok o.key
  | Entry.raw _ => Except.error "AttributeError: str object has no attribute key"

namespace SelectMultipleMixin

/-- State of a multi-select field: the query, and the `_data`/`_formdata`
pair. Data entries may be `none` (an external fetch that returned `None`). -/
structure State where
  query : Query
  _data : Option (List (Option Entry))
  _formdata : Option (List String)
deriving DecidableEq, Repr

def _set_data (s : State) (d : Option (List (Option Entry))) : State :=
  { s with _data := d, _formdata := none }

/-- The token-to-object map `{obj.key.urlsafe(): obj for obj in self.query}`:
a Python dict comprehension keeps the LAST object for a duplicated key, so
lookup scans the reversed query. -/
def qmap (q : Query) (tok : String) : Option Obj :=
  q.reverse.find? (fun obj => obj.key.urlsafe == tok)

/-- The state change of the multi-select `data` getter: if raw tokens are
pending, map each through the query map, falling back to the raw token
itself, and store the list (clearing `_formdata` unconditionally). -/
def resolve (s : State) : State :=
  match s._formdata with
  | none => s
  | some toks =>
    _set_data s (some (toks.map (fun x =>
      some (match qmap s.query x with
            | some o => Entry.obj o
            | none => Entry.raw x))))

/-- Value returned by the multi-select `data` getter. -/
def _get_data (s : State) : Option (List (Option Entry)) := (resolve s)._data

/-- Multi-select `process_data(value)`: dispatch `get_async` for every input
reference, then collect `get_result` in input order. A future's eventual
value is fixed at dispatch (`fetch`), so completion order cannot influence
the collected list. A falsy (empty/`None`) input stores `None`. -/
def process_data (fetch : Key → Option Obj) (s : State) (value : List Key) :
    State :=
  match value with
  | [] => _set_data s none
  | _ =>
    _set_data s (some (value.map (fun r => (fetch r).map Entry.obj)))

/-- Multi-select `process_formdata(valuelist)`: store the submitted list
verbatim as the pending tokens, even when it is empty (`_data` untouched). -/
def process_formdata (s : State) (valuelist : List String) : State :=
  { s with _formdata := some valuelist }

/-- The comprehension `[x.key for x in data if x is not None]`: left to
right, skip `None` entries, take `.key` of the rest; the first `.key` on a
raw token raises and aborts the whole comprehension. -/
def keysOf : List (Option Entry) → Except String (List Key)
  | [] => Except.ok []
  | none :: rest => keysOf rest
  | some e :: rest => do
    let k ← Entry.key e
    let ks ← keysOf rest
    pure (k :: ks)

/-- Multi-select `populate_obj(obj, name)`: value written to the target —
`[x.key for x in self.data if x is not None]` when data is truthy
(only `None` entries are filtered; `.key` on a raw token raises), the empty
list when data is `None` or empty. -/
def populate_obj (s : State) : Except String (List Key) :=
  match _get_data s with
  | none => Except.ok []
  | some [] => Except.ok []
  | some l => keysOf l

end SelectMultipleMixin

/-! ### Text-based list and point fields

Models of the Python library primitives these fields call:
`str.splitlines`, `int(str)`, `str.split(',')`, `decimal.Decimal`. -/

/-- Python `str.split(sep)` for a one-character separator, on the character
list of the string: always yields one more part than there are separator
occurrences (so `""` gives `[""]`). -/
def pySplit (sep : Char) : List Char → List (List Char)
  | [] => [[]]
  | c :: rest =>
    match pySplit sep rest with
    | [] => []
    | p :: ps => if c = sep then [] :: p :: ps else (c :: p) :: ps

/-- The characters Python's `str.strip()` and `int()`/`Decimal()` treat as
surrounding whitespace. -/
def isPySpace (c : Char) : Bool :=
  c = ' ' ∨ c = '\t' ∨ c = '\n' ∨ c = '\r' ∨ c = '\x0b' ∨ c = '\x0c'

/-- Python `str.strip()`: drop whitespace from both ends. -/
def pyStrip (cs : List Char) : List Char :=
  ((cs.dropWhile isPySpace).reverse.dropWhile isPySpace).reverse

/-- Python `str.splitlines()` restricted to `\n` separators (the only
separator the fields' inputs use): split on newlines, with no empty final
element after a trailing newline, and `[]` for the empty string. -/
def splitlines (s : String) : List String :=
  match (pySplit '\n' s.data).reverse with
  | [] => []
  | last :: rest =>
    ((if last = [] then rest.reverse else (last :: rest).reverse).map
      String.mk)

/-- Python `int(str)`: strip surrounding whitespace, optional sign, one or
more decimal digits; anything else raises `ValueError` (`none`). -/
def pyInt (s : String) : Option Int :=
  let cs := pyStrip s.data
  let p : Bool × List Char :=
    match cs with
    | '-' :: r => (true, r)
    | '+' :: r => (false, r)
    | r => (false, r)
  if p.2 ≠ [] ∧ p.2.all Char.isDigit then
    let n : Nat := p.2.foldl (fun a c => a * 10 + (c.toNat - '0'.toNat)) 0
    some (if p.1 then -(n : Int) else (n : Int))
  else none

/-- A finite plain decimal numeral as `decimal.Decimal` stores it: sign,
integer digits, fractional digits. Modelled from Python's `decimal.Decimal`
restricted to plain finite numerals (optional sign, digits, optional point);
special values (NaN, Infinity) and exponent notation are outside the model. -/
structure Dec where
  neg : Bool
  intPart : List Char
  fracPart : List Char
deriving DecidableEq, Repr

/-- `decimal.Decimal(s)`: surrounding whitespace allowed, optional sign,
digits with an optional single point; at least one digit overall;
`InvalidOperation` (`none`) otherwise. -/
def parseDec (s : String) : Option Dec :=
  let cs := pyStrip s.data
  let p : Bool × List Char :=
    match cs with
    | '-' :: r => (true, r)
    | '+' :: r => (false, r)
    | r => (false, r)
  let ip := p.2.takeWhile Char.isDigit
  match p.2.dropWhile Char.isDigit with
  | [] => if ip = [] then none else some ⟨p.1, ip, []⟩
  | '.' :: fp =>
    if fp.all Char.isDigit ∧ (ip ≠ [] ∨ fp ≠ []) then some ⟨p.1, ip, fp⟩
    else none
  | _ => none

/-- `str(decimal.Decimal)` for a plain finite numeral: leading zeros of the
integer part dropped (at least one digit kept), fractional digits preserved,
the point omitted when there are none. -/
def Dec.str (d : Dec) : String :=
  let ip := d.intPart.dropWhile (fun c => c = '0')
  let ip := if ip = [] then ['0'] else ip
  (if d.neg then "-" else "") ++ String.mk ip ++
    (if d.fracPart = [] then "" else "." ++ String.mk d.fracPart)

/-- The comprehension `[int(value) for value in lines]`: left to right,
parse each line; the first line failing integer parsing raises `ValueError`
and aborts the whole comprehension. -/
def pyIntList : List String → Option (List Int)
  | [] => some []
  | v :: rest => do
    let n ← pyInt v
    let ns ← pyIntList rest
    pure (n :: ns)

/-- `IntegerListPropertyField.process_formdata`: on a non-empty valuelist,
split the first value into lines and parse every line as an integer; the
whole comprehension is evaluated before `self.data` is assigned, so a
`ValueError` on any line leaves the previous data untouched and raises one
validation error. Returns (data after the call, raised error if any). -/
def IntegerListPropertyField.process_formdata (data : Option (List Int))
    (valuelist : List String) : Option (List Int) × Option String :=
  match valuelist with
  | [] => (data, none)
  | v :: _ =>
    match pyIntList (splitlines v) with
    | some xs => (some xs, none)
    | none => (data, some "Not a valid integer list")

/-- `GeoPtPropertyField.process_formdata`: split the first value on a comma
into exactly two parts (`ValueError` otherwise), parse each stripped part as
a Decimal (`InvalidOperation` otherwise), and on success store the string
`"<lat>,<lon>"` built from the Decimals' string forms; either failure is
caught and re-raised as one validation error, leaving data untouched.
Returns (data after the call, raised error if any). -/
def GeoPtPropertyField.process_formdata (data : Option String)
    (valuelist : List String) : Option String × Option String :=
  match valuelist with
  | [] => (data, none)
  | v :: _ =>
    match pySplit ',' v.data with
    | [latCs, lonCs] =>
      match parseDec (String.mk (pyStrip latCs)),
            parseDec (String.mk (pyStrip lonCs)) with
      | some la, some lo => (some (la.str ++ "," ++ lo.str), none)
      | _, _ => (data, some "Not a valid coordinate location")
    | _ => (data, some "Not a valid coordinate location")

/-! ## Helper lemmas -/

/-- A successful `find?` returns the first satisfying element: the list
splits around the result, with every earlier element failing the predicate. -/
theorem find?_first {α : Type} (p : α → Bool) :
    ∀ l a, l.find? p = some a →
      ∃ pre post, l = pre ++ a :: post ∧ (∀ x ∈ pre, p x = false) ∧ p a = true := by
  intro l
  induction l with
  | nil => intro a h; simp at h
  | cons b bs ih =>
    intro a h
    by_cases hb : p b
    · rw [List.find?_cons_of_pos _ hb] at h
      cases h
      exact ⟨[], bs, rfl, by simp, hb⟩
    · rw [List.find?_cons_of_neg _ (by simpa using hb)] at h
      obtain ⟨pre, post, heq, hpre, hpa⟩ := ih a h
      refine ⟨b :: pre, post, by simp [heq], ?_, hpa⟩
      intro x hx
      rcases List.mem_cons.1 hx with h1 | h1
      · subst h1; simpa using hb
      · exact hpre x h1

/-- `keysOf` on a list with no raw-token entry succeeds with the keys of the
non-`None` entries, in order. -/
theorem keysOf_no_raw (l : List (Option Entry))
    (h : ∀ e ∈ l, ∀ t, e ≠ some (Entry.raw t)) :
    SelectMultipleMixin.keysOf l =
      Except.ok (l.filterMap (fun e => match e with
        | some (Entry.obj o) => some o.key
        | _ => none)) := by
  induction l with
  | nil => rfl
  | cons e rest ih =>
    have hrest : ∀ e ∈ rest, ∀ t, e ≠ some (Entry.raw t) := by
      intro x hx t; exact h x (List.mem_cons_of_mem _ hx) t
    match e with
    | none => simpa [SelectMultipleMixin.keysOf] using ih hrest
    | some (Entry.obj o) =>
      simp [SelectMultipleMixin.keysOf, Entry.key, ih hrest]
      rfl
    | some (Entry.raw t) =>
      exact absurd rfl (h (some (Entry.raw t)) (List.mem_cons_self _ _) t)

/-- `keysOf` on a list containing a raw-token entry fails with the
AttributeError. -/
theorem keysOf_raw (l : List (Option Entry)) (t : String)
    (h : some (Entry.raw t) ∈ l) :
    SelectMultipleMixin.keysOf l =
      Except.error "AttributeError: str object has no attribute key" := by
  induction l with
  | nil => simp at h
  | cons e rest ih =>
    rcases List.mem_cons.1 h with h1 | h1
    · subst h1
      rfl
    · match e with
      | none => simpa [SelectMultipleMixin.keysOf] using ih h1
      | some (Entry.obj o) =>
        simp [SelectMultipleMixin.keysOf, Entry.key, ih h1]
        rfl
      | some (Entry.raw u) => rfl

/-- If any line fails integer parsing, the whole comprehension fails. -/
theorem pyIntList_none (l : List String) (line : String) (hmem : line ∈ l)
    (hline : pyInt line = none) : pyIntList l = none := by
  induction l with
  | nil => simp at hmem
  | cons a rest ih =>
    rcases List.mem_cons.1 hmem with h1 | h1
    · subst h1
      simp [pyIntList, hline]
    · cases ha : pyInt a
      · simp [pyIntList, ha]
      · simp [pyIntList, ha, ih h1]

/-! ## Claims -/

/-- Claim C1, counterexample: reading `data` with a pending token that
matches no object of the query (here: the empty query) does NOT clear the
`_formdata` slot, contradicting the claim that `_formdata` is `None` after
every read regardless of whether the token matched. -/
theorem C1_counterexample :
    (KeyPropertyField.resolve
        { allow_blank := false, query := [], _data := none,
          _formdata := some "t" })._formdata ≠ none := by
  decide

/-- Claim C1, amended: explicitly setting `data` clears `_formdata`; reading
`data` while the pending token matches some query object clears `_formdata`
and memoizes the resolution (a second read leaves the state unchanged); but
when the token matches no query object, `_formdata` stays set, so a later
read scans the query again. -/
theorem C1_amended (s : KeyPropertyField.State) (d : Option Obj) (tok : String)
    (h : s._formdata = some tok) :
    ((KeyPropertyField._set_data s d)._formdata = none)
    ∧ ((∃ obj ∈ s.query, obj.key.urlsafe = tok) →
        (KeyPropertyField.resolve s)._formdata = none
        ∧ KeyPropertyField.resolve (KeyPropertyField.resolve s)
            = KeyPropertyField.resolve s)
    ∧ ((∀ obj ∈ s.query, obj.key.urlsafe ≠ tok) →
        (KeyPropertyField.resolve s)._formdata = some tok) := by
  refine ⟨rfl, ?_, ?_⟩
  · rintro ⟨obj, hmem, hm⟩
    cases hfind : s.query.find? (fun o => o.key.urlsafe == tok) with
    | none =>
      exact absurd hm (by simpa using List.find?_eq_none.1 hfind obj hmem)
    | some o =>
      constructor
      · simp [KeyPropertyField.resolve, h, hfind, KeyPropertyField._set_data]
      · simp [KeyPropertyField.resolve, h, hfind, KeyPropertyField._set_data]
  · intro hnone
    have hfind : s.query.find? (fun o => o.key.urlsafe == tok) = none :=
      List.find?_eq_none.2 (fun x hx => by simpa using hnone x hx)
    simp [KeyPropertyField.resolve, h, hfind]

/-- Witness for C1_amended: a concrete state whose pending token matches the
single query object; after one read `_formdata` is cleared. -/
theorem C1_witness :
    (KeyPropertyField.resolve
        { allow_blank := false, query := [{ key := ⟨1⟩, label := "a" }],
          _data := none, _formdata := some "1" })._formdata = none :=
  ((C1_amended _ none "1" rfl).2.1
    ⟨{ key := ⟨1⟩, label := "a" }, by decide, by decide⟩).1

/-- Claim C2: with a pending raw token (and `_data` reset to `None`, which is
how `process_formdata` leaves the state), reading `data` yields the first
query object (in iteration order) whose key's urlsafe serialization equals
the token, and yields `None` when no object's key serializes to the token. -/
theorem C2_data_getter_first_match (ab : Bool) (q : Query) (tok : String) :
    ((∃ obj ∈ q, obj.key.urlsafe = tok) →
      ∃ pre obj post, q = pre ++ obj :: post ∧ obj.key.urlsafe = tok
        ∧ (∀ o ∈ pre, o.key.urlsafe ≠ tok)
        ∧ KeyPropertyField._get_data
            { allow_blank := ab, query := q, _data := none,
              _formdata := some tok } = some obj)
    ∧ ((∀ obj ∈ q, obj.key.urlsafe ≠ tok) →
      KeyPropertyField._get_data
        { allow_blank := ab, query := q, _data := none,
          _formdata := some tok } = none) := by
  constructor
  · rintro ⟨obj, hmem, hm⟩
    cases hfind : q.find? (fun o => o.key.urlsafe == tok) with
    | none =>
      exact absurd hm (by simpa using List.find?_eq_none.1 hfind obj hmem)
    | some o =>
      obtain ⟨pre, post, heq, hpre, hpo⟩ := find?_first _ q o hfind
      refine ⟨pre, o, post, heq, by simpa using hpo, ?_, ?_⟩
      · intro x hx
        simpa using hpre x hx
      · simp [KeyPropertyField._get_data, KeyPropertyField.resolve, hfind,
          KeyPropertyField._set_data]
  · intro hnone
    have hfind : q.find? (fun o => o.key.urlsafe == tok) = none :=
      List.find?_eq_none.2 (fun x hx => by simpa using hnone x hx)
    simp [KeyPropertyField._get_data, KeyPropertyField.resolve, hfind]

/-- Witness for C2: on a two-object query whose first object's key
serializes to the pending token, the getter resolves to that first object. -/
theorem C2_witness :
    ∃ pre obj post,
      ([{ key := ⟨1⟩, label := "a" }, { key := ⟨2⟩, label := "b" }] : Query)
          = pre ++ obj :: post
        ∧ obj.key.urlsafe = "1"
        ∧ (∀ o ∈ pre, o.key.urlsafe ≠ "1")
        ∧ KeyPropertyField._get_data
            { allow_blank := false,
              query := [{ key := ⟨1⟩, label := "a" },
                        { key := ⟨2⟩, label := "b" }],
              _data := none, _formdata := some "1" }
            = some obj :=
  (C2_data_getter_first_match false
      [{ key := ⟨1⟩, label := "a" }, { key := ⟨2⟩, label := "b" }] "1").1
    ⟨{ key := ⟨1⟩, label := "a" }, by decide, by decide⟩

/-- Claim C3: `pre_validate` raises a validation error exactly when the
resolved data is a selection whose key equals no query object's key, or the
resolved data is `None` while blank is not allowed; otherwise it returns
without error. -/
theorem C3_pre_validate_iff (s : KeyPropertyField.State) :
    KeyPropertyField.pre_validate s = Except.error "Not a valid choice"
    ↔ ((∃ d, KeyPropertyField._get_data s = some d
          ∧ ∀ obj ∈ s.query, d.key ≠ obj.key)
       ∨ (KeyPropertyField._get_data s = none ∧ s.allow_blank = false)) := by
  unfold KeyPropertyField.pre_validate
  cases hd : KeyPropertyField._get_data s with
  | none =>
    cases hb : s.allow_blank <;> simp [hb]
  | some d =>
    by_cases hq : s.query.any (fun obj => d.key == obj.key)
    · simp only [hq, if_true]
      constructor
      · intro h; exact absurd h (by simp)
      · rintro (⟨d2, hd2, hall⟩ | ⟨hnone, _⟩)
        · cases hd2
          obtain ⟨obj, hmem, hkey⟩ := List.any_eq_true.1 hq
          exact absurd (by simpa using hkey) (hall obj hmem)
        · cases hnone
    · simp only [hq, if_false]
      constructor
      · intro _
        left
        refine ⟨d, rfl, ?_⟩
        intro obj hmem heq
        exact hq (List.any_eq_true.2 ⟨obj, hmem, by simpa using heq⟩)
      · intro _; rfl

/-- Claim C4, counterexample: constructing with only a ready-made query and
no reference class leaves the `query` attribute unset instead of setting it
to the supplied query. -/
theorem C4_counterexample :
    KeyPropertyField.init_query none (some [{ key := ⟨1⟩, label := "a" }])
      ≠ some [{ key := ⟨1⟩, label := "a" }] := by
  decide

/-- Claim C4, amended: the `query` attribute is assigned only when a
reference class is supplied — then it is the ready-made query when one was
also given, else the class's derived all-entities query; when only a
ready-made query is supplied (no reference class), the attribute is left
unset. -/
theorem C4_amended (rc : RefClass) (q : Query) :
    KeyPropertyField.init_query (some rc) none = some rc.default_query
    ∧ KeyPropertyField.init_query (some rc) (some q) = some q
    ∧ KeyPropertyField.init_query none (some q) = none
    ∧ KeyPropertyField.init_query none none = none :=
  ⟨rfl, rfl, rfl, rfl⟩

/-- Claim C5, counterexample: a data entry that stayed an unresolved raw
token is NOT filtered out by `populate_obj` — attribute access `.key` on it
fails, so `populate_obj` raises instead of writing a key list. -/
theorem C5_counterexample :
    SelectMultipleMixin.populate_obj
        { query := [], _data := some [some (Entry.raw "t")], _formdata := none }
      = Except.error "AttributeError: str object has no attribute key" := rfl

/-- Claim C5, amended: `populate_obj` writes the empty list when data is
unset or empty; when data is non-empty and contains no unresolved raw-token
entry it writes the keys of the non-`None` entries in order (`None` entries
filtered out); but a raw-token entry is not filtered — on it `populate_obj`
fails with an AttributeError. -/
theorem C5_amended (s : SelectMultipleMixin.State) :
    (SelectMultipleMixin._get_data s = none →
      SelectMultipleMixin.populate_obj s = Except.ok [])
    ∧ (SelectMultipleMixin._get_data s = some [] →
      SelectMultipleMixin.populate_obj s = Except.ok [])
    ∧ (∀ l, SelectMultipleMixin._get_data s = some l →
        (∀ e ∈ l, ∀ t, e ≠ some (Entry.raw t)) →
        SelectMultipleMixin.populate_obj s =
          Except.ok (l.filterMap (fun e => match e with
            | some (Entry.obj o) => some o.key
            | _ => none)))
    ∧ (∀ l t, SelectMultipleMixin._get_data s = some l →
        some (Entry.raw t) ∈ l →
        SelectMultipleMixin.populate_obj s =
          Except.error "AttributeError: str object has no attribute key") := by
  refine ⟨?_, ?_, ?_, ?_⟩
  · intro h
    simp [SelectMultipleMixin.populate_obj, h]
  · intro h
    simp [SelectMultipleMixin.populate_obj, h]
  · intro l hl hno
    cases l with
    | nil => simp [SelectMultipleMixin.populate_obj, hl]
    | cons e rest =>
      rw [SelectMultipleMixin.populate_obj, hl]
      exact keysOf_no_raw _ hno
  · intro l t hl hmem
    cases l with
    | nil => simp at hmem
    | cons e rest =>
      rw [SelectMultipleMixin.populate_obj, hl]
      exact keysOf_raw _ t hmem

/-- Witness for C5_amended: on resolved data made of one object and one
`None` entry, `populate_obj` writes the object's key alone. -/
theorem C5_witness :
    SelectMultipleMixin.populate_obj
        { query := [],
          _data := some [some (Entry.obj { key := ⟨1⟩, label := "a" }), none],
          _formdata := none }
      = Except.ok [⟨1⟩] :=
  (C5_amended
      { query := [],
        _data := some [some (Entry.obj { key := ⟨1⟩, label := "a" }), none],
        _formdata := none }).2.2.1
    [some (Entry.obj { key := ⟨1⟩, label := "a" }), none] rfl
    (by rintro e he t rfl; simp at he)

/-- Claim C6: storing a resolved selection through `populate_obj` and
feeding the stored reference back through `process_data` (with an external
`.get()` that returns the object identified by the key) reproduces the same
data value. -/
theorem C6_roundtrip (get : Key → Option Obj) (s s2 : KeyPropertyField.State)
    (S : Obj) (_hmem : S ∈ s.query)
    (hS : KeyPropertyField._get_data s = some S)
    (hget : get S.key = some S) :
    KeyPropertyField.populate_obj s = some S.key
    ∧ KeyPropertyField._get_data
        (KeyPropertyField.process_data get s2 (KeyPropertyField.populate_obj s))
      = some S := by
  have h1 : KeyPropertyField.populate_obj s = some S.key := by
    rw [KeyPropertyField.populate_obj, hS]
  refine ⟨h1, ?_⟩
  rw [h1]
  simp [KeyPropertyField.process_data, hget, KeyPropertyField._set_data,
    KeyPropertyField._get_data, KeyPropertyField.resolve]

/-- Witness for C6: one-object query, `.get` resolving key 1 to that object;
the round trip reproduces it. -/
theorem C6_witness :
    KeyPropertyField._get_data
        (KeyPropertyField.process_data
          (fun k => if k = ⟨1⟩ then some { key := ⟨1⟩, label := "a" } else none)
          { allow_blank := true, query := [], _data := none, _formdata := none }
          (KeyPropertyField.populate_obj
            { allow_blank := false, query := [{ key := ⟨1⟩, label := "a" }],
              _data := some { key := ⟨1⟩, label := "a" }, _formdata := none }))
      = some { key := ⟨1⟩, label := "a" } :=
  (C6_roundtrip
    (fun k => if k = ⟨1⟩ then some { key := ⟨1⟩, label := "a" } else none)
    { allow_blank := false, query := [{ key := ⟨1⟩, label := "a" }],
      _data := some { key := ⟨1⟩, label := "a" }, _formdata := none }
    { allow_blank := true, query := [], _data := none, _formdata := none }
    { key := ⟨1⟩, label := "a" }
    (by decide) rfl (by decide)).2

/-- Claim C7: multi-select `process_data` on a non-empty list of references
stores, as the field's data, the fetched objects in exactly the input order.
Each dispatched future's value is fixed by the fetch function at dispatch
time, so the collected list cannot depend on completion order. -/
theorem C7_process_data_order (fetch : Key → Option Obj)
    (s : SelectMultipleMixin.State) (value : List Key) (h : value ≠ []) :
    SelectMultipleMixin._get_data (SelectMultipleMixin.process_data fetch s value)
      = some (value.map (fun r => (fetch r).map Entry.obj)) := by
  cases value with
  | nil => exact absurd rfl h
  | cons v vs =>
    simp [SelectMultipleMixin.process_data, SelectMultipleMixin._set_data,
      SelectMultipleMixin._get_data, SelectMultipleMixin.resolve]

/-- Witness for C7: fetching two references stores the two objects in input
order. -/
theorem C7_witness :
    SelectMultipleMixin._get_data
        (SelectMultipleMixin.process_data
          (fun k => some { key := k, label := "x" })
          { query := [], _data := none, _formdata := none }
          [⟨2⟩, ⟨1⟩])
      = some [some (Entry.obj { key := ⟨2⟩, label := "x" }),
              some (Entry.obj { key := ⟨1⟩, label := "x" })] :=
  C7_process_data_order _ _ [⟨2⟩, ⟨1⟩] (by decide)

/-- Claim C8: the integer list field parses `"1\n2\n3"` to `[1, 2, 3]`; for
every submitted text, if any of its lines fails integer parsing (e.g.
`"1\nabc"`), the whole field fails with the single validation error and the
previous data — universally quantified — is left unchanged (no partial
result); and whenever every line parses, the field succeeds with the parsed
list and no error. -/
theorem C8_integer_list (data : Option (List Int)) :
    IntegerListPropertyField.process_formdata data ["1\n2\n3"]
      = (some [1, 2, 3], none)
    ∧ IntegerListPropertyField.process_formdata data ["1\nabc"]
      = (data, some "Not a valid integer list")
    ∧ (∀ v : String, (∃ line ∈ splitlines v, pyInt line = none) →
        IntegerListPropertyField.process_formdata data [v]
          = (data, some "Not a valid integer list"))
    ∧ (∀ (v : String) (xs : List Int), pyIntList (splitlines v) = some xs →
        IntegerListPropertyField.process_formdata data [v]
          = (some xs, none)) := by
  refine ⟨rfl, rfl, ?_, ?_⟩
  · rintro v ⟨line, hmem, hline⟩
    have h : pyIntList (splitlines v) = none := pyIntList_none _ _ hmem hline
    simp [IntegerListPropertyField.process_formdata, h]
  · intro v xs h
    simp [IntegerListPropertyField.process_formdata, h]

/-- Witness for C8: `"1\nabc"` has a line failing integer parsing, and the
field then fails leaving the prior data (here `[9]`) unchanged. -/
theorem C8_witness :
    IntegerListPropertyField.process_formdata (some [9]) ["1\nabc"]
      = (some [9], some "Not a valid integer list") :=
  (C8_integer_list (some [9])).2.2.1 "1\nabc" ⟨"abc", by decide, by decide⟩

/-- Claim C9: the geo point field succeeds exactly when the submitted text
splits on a comma into two parts that both parse as plain decimal numerals,
storing the canonical `"<lat>,<lon>"` decimal string; any split or parse
failure raises the single validation error and leaves data unchanged. -/
theorem C9_geo_point (data : Option String) (v : String) :
    (∀ latCs lonCs la lo, pySplit ',' v.data = [latCs, lonCs] →
      parseDec (String.mk (pyStrip latCs)) = some la →
      parseDec (String.mk (pyStrip lonCs)) = some lo →
      GeoPtPropertyField.process_formdata data [v]
        = (some (la.str ++ "," ++ lo.str), none))
    ∧ ((GeoPtPropertyField.process_formdata data [v]).2 = none ↔
        ∃ latCs lonCs la lo, pySplit ',' v.data = [latCs, lonCs]
          ∧ parseDec (String.mk (pyStrip latCs)) = some la
          ∧ parseDec (String.mk (pyStrip lonCs)) = some lo)
    ∧ ((GeoPtPropertyField.process_formdata data [v]).2 ≠ none →
        (GeoPtPropertyField.process_formdata data [v]).1 = data)
    ∧ ((GeoPtPropertyField.process_formdata data [v]).2 = none
       ∨ (GeoPtPropertyField.process_formdata data [v]).2
           = some "Not a valid coordinate location") := by
  rcases hsplit : pySplit ',' v.data with _ | ⟨latCs, _ | ⟨lonCs, _ | ⟨x, xs⟩⟩⟩
  · have hproc : GeoPtPropertyField.process_formdata data [v]
        = (data, some "Not a valid coordinate location") := by
      simp [GeoPtPropertyField.process_formdata, hsplit]
    refine ⟨?_, ?_, ?_, ?_⟩
    · intro a b la lo hab
      simp at hab
    · rw [hproc]
      constructor
      · intro h; simp at h
      · rintro ⟨a, b, la, lo, hab, -, -⟩
        simp at hab
    · intro _; rw [hproc]
    · right; rw [hproc]
  · have hproc : GeoPtPropertyField.process_formdata data [v]
        = (data, some "Not a valid coordinate location") := by
      simp [GeoPtPropertyField.process_formdata, hsplit]
    refine ⟨?_, ?_, ?_, ?_⟩
    · intro a b la lo hab
      simp at hab
    · rw [hproc]
      constructor
      · intro h; simp at h
      · rintro ⟨a, b, la, lo, hab, -, -⟩
        simp at hab
    · intro _; rw [hproc]
    · right; rw [hproc]
  · cases hla : parseDec (String.mk (pyStrip latCs)) with
    | none =>
      have hproc : GeoPtPropertyField.process_formdata data [v]
          = (data, some "Not a valid coordinate location") := by
        simp [GeoPtPropertyField.process_formdata, hsplit, hla]
      refine ⟨?_, ?_, ?_, ?_⟩
      · intro a b la lo hab hpa _
        injection hab with e1 e2
        injection e2 with e2 _
        subst e1; subst e2
        simp [hla] at hpa
      · rw [hproc]
        constructor
        · intro h; simp at h
        · rintro ⟨a, b, la, lo, hab, hpa, -⟩
          injection hab with e1 e2
          injection e2 with e2 _
          subst e1; subst e2
          simp [hla] at hpa
      · intro _; rw [hproc]
      · right; rw [hproc]
    | some la =>
      cases hlo : parseDec (String.mk (pyStrip lonCs)) with
      | none =>
        have hproc : GeoPtPropertyField.process_formdata data [v]
            = (data, some "Not a valid coordinate location") := by
          simp [GeoPtPropertyField.process_formdata, hsplit, hla, hlo]
        refine ⟨?_, ?_, ?_, ?_⟩
        · intro a b la2 lo hab _ hpb
          injection hab with e1 e2
          injection e2 with e2 _
          subst e1; subst e2
          simp [hlo] at hpb
        · rw [hproc]
          constructor
          · intro h; simp at h
          · rintro ⟨a, b, la2, lo, hab, -, hpb⟩
            injection hab with e1 e2
            injection e2 with e2 _
            subst e1; subst e2
            simp [hlo] at hpb
        · intro _; rw [hproc]
        · right; rw [hproc]
      | some lo =>
        have hproc : GeoPtPropertyField.process_formdata data [v]
            = (some (la.str ++ "," ++ lo.str), none) := by
          simp [GeoPtPropertyField.process_formdata, hsplit, hla, hlo]
        refine ⟨?_, ?_, ?_, ?_⟩
        · intro a b la2 lo2 hab hpa hpb
          injection hab with e1 e2
          injection e2 with e2 _
          subst e1; subst e2
          rw [hla] at hpa
          injection hpa with hpa
          rw [hlo] at hpb
          injection hpb with hpb
          subst hpa; subst hpb
          exact hproc
        · rw [hproc]
          constructor
          · intro _; exact ⟨latCs, lonCs, la, lo, rfl, hla, hlo⟩
          · intro _; rfl
        · intro h
          exact absurd (by rw [hproc]) h
        · left; rw [hproc]
  · have hproc : GeoPtPropertyField.process_formdata data [v]
        = (data, some "Not a valid coordinate location") := by
      simp [GeoPtPropertyField.process_formdata, hsplit]
    refine ⟨?_, ?_, ?_, ?_⟩
    · intro a b la lo hab
      simp at hab
    · rw [hproc]
      constructor
      · intro h; simp at h
      · rintro ⟨a, b, la, lo, hab, -, -⟩
        simp at hab
    · intro _; rw [hproc]
    · right; rw [hproc]

/-- Witness for C9: `"12.34, -56.78"` is stored as `"12.34,-56.78"`. -/
theorem C9_witness :
    GeoPtPropertyField.process_formdata none ["12.34, -56.78"]
      = (some "12.34,-56.78", none) :=
  (C9_geo_point none "12.34, -56.78").1 "12.34".data " -56.78".data
    ⟨false, ['1', '2'], ['3', '4']⟩ ⟨true, ['5', '6'], ['7', '8']⟩
    (by decide) (by decide) (by decide)

/-- Claim C10: multi-select `process_formdata` stores the submitted list
verbatim even when empty — after processing `[]` a read of `data` yields the
empty list, and the resolution overwrites any previously set data — while
the base field's `process_formdata` leaves the whole state unchanged on an
empty valuelist. -/
theorem C10_empty_valuelist (s : KeyPropertyField.State)
    (m : SelectMultipleMixin.State) :
    SelectMultipleMixin._get_data (SelectMultipleMixin.process_formdata m [])
      = some []
    ∧ (SelectMultipleMixin.resolve (SelectMultipleMixin.process_formdata m []))._data
      = some []
    ∧ KeyPropertyField.process_formdata s [] = s := by
  refine ⟨?_, ?_, rfl⟩ <;>
    simp [SelectMultipleMixin._get_data, SelectMultipleMixin.resolve,
      SelectMultipleMixin.process_formdata, SelectMultipleMixin._set_data]

end WtformsNdb
